import Mathlib

/-!
# EcoAI CO2 dashboard — verification of the analytics core

Shallow embedding of the analytics derivation and recommendation core of the
`CodeEfficiencyDashboard` repository (`src/llm-efficiency-dashboard/src/App.js`).
JavaScript numbers are modelled as exact rationals; `toFixed(1)` is modelled as
rounding to one decimal with ties toward positive infinity, which agrees with
the ECMAScript definition on exact decimal inputs.
-/

namespace CO2Dashboard

/-- A model entry as held in the hardcoded `models` state (App.js lines 9-14). -/
structure Model where
  id : Nat
  name : String
  type : String
  co2 : ℚ
  status : String
  lastRun : String

/-- First hardcoded model (App.js line 10). -/
def bertBase : Model :=
  { id := 1, name := "BERT-Base", type := "NLP", co2 := 452 / 10, status := "analyzed", lastRun := "2024-12-01" }

/-- Second hardcoded model (App.js line 11). -/
def gpt35 : Model :=
  { id := 2, name := "GPT-3.5", type := "Language", co2 := 2347 / 10, status := "analyzing", lastRun := "2024-12-02" }

/-- Third hardcoded model (App.js line 12). -/
def resnet50 : Model :=
  { id := 3, name := "ResNet-50", type := "Vision", co2 := 783 / 10, status := "analyzed", lastRun := "2024-11-29" }

/-- Fourth hardcoded model (App.js line 13). -/
def yoloV8 : Model :=
  { id := 4, name := "YOLO-v8", type := "Detection", co2 := 1569 / 10, status := "optimized", lastRun := "2024-12-01" }

/-- The initial `models` state array (App.js lines 9-14). -/
def models : List Model := [bertBase, gpt35, resnet50, yoloV8]

/-- A model record with a given co2 figure and the shape of the hardcoded
entries, used to instantiate per-record statements at concrete co2 values. -/
def mkModel (c : ℚ) : Model :=
  { id := 0, name := "M", type := "NLP", co2 := c, status := "analyzed", lastRun := "2024-12-01" }

/-- An optimization catalog entry as stored in `baseOptimizations`
(App.js lines 27-52); `reduction` keeps the literal percent string of the
source, e.g. `"25%"`. -/
structure OptEntry where
  technique : String
  reduction : String
  impact : String
  difficulty : String
  description : String
deriving DecidableEq

/-- The `NLP` entry list of `baseOptimizations` (App.js lines 28-33). -/
def nlpOptimizations : List OptEntry :=
  [⟨"Model Pruning", "25%", "High", "Medium", "Remove redundant attention heads and layers"⟩,
   ⟨"Quantization", "35%", "High", "Low", "Convert to INT8 precision for faster inference"⟩,
   ⟨"Knowledge Distillation", "45%", "Medium", "High", "Create smaller student model from BERT"⟩,
   ⟨"Layer Freezing", "20%", "Low", "Low", "Freeze early transformer layers"⟩]

/-- The `Language` entry list of `baseOptimizations` (App.js lines 34-39). -/
def languageOptimizations : List OptEntry :=
  [⟨"Model Pruning", "30%", "High", "High", "Structured pruning of transformer blocks"⟩,
   ⟨"Quantization", "40%", "High", "Medium", "Mixed precision optimization"⟩,
   ⟨"Knowledge Distillation", "50%", "Medium", "High", "Distill to smaller architecture"⟩,
   ⟨"Gradient Checkpointing", "15%", "Low", "Low", "Reduce memory usage during training"⟩]

/-- The `Vision` entry list of `baseOptimizations` (App.js lines 40-45). -/
def visionOptimizations : List OptEntry :=
  [⟨"Channel Pruning", "35%", "High", "Medium", "Remove less important CNN channels"⟩,
   ⟨"Quantization", "40%", "High", "Low", "Post-training quantization"⟩,
   ⟨"MobileNet Architecture", "60%", "Medium", "High", "Replace with efficient architecture"⟩,
   ⟨"Input Resolution Reduction", "25%", "Low", "Low", "Optimize input image size"⟩]

/-- The `Detection` entry list of `baseOptimizations` (App.js lines 46-51). -/
def detectionOptimizations : List OptEntry :=
  [⟨"Model Pruning", "28%", "High", "Medium", "Prune detection head layers"⟩,
   ⟨"Quantization", "32%", "High", "Low", "Quantize backbone and neck"⟩,
   ⟨"NAS Optimization", "45%", "High", "High", "Neural architecture search"⟩,
   ⟨"Anchor Optimization", "18%", "Low", "Low", "Reduce number of anchor boxes"⟩]

/-- The category-keyed `baseOptimizations` object (App.js lines 27-52),
modelled as a partial lookup to mirror JavaScript object indexing, which yields
`undefined` for an unknown key. -/
def baseOptimizations : String → Option (List OptEntry)
  | "NLP" => some nlpOptimizations
  | "Language" => some languageOptimizations
  | "Vision" => some visionOptimizations
  | "Detection" => some detectionOptimizations
  | _ => none

/-- `getModelOptimizations` (App.js lines 24-54): the empty list for a null
model, otherwise the category list with the NLP list as the `||` fallback. -/
def getModelOptimizations : Option Model → List OptEntry
  | none => []
  | some m => (baseOptimizations m.type).getD nlpOptimizations

/-- One point of the `emissionData` time series (App.js lines 56-63). -/
structure EmissionPoint where
  name : String
  training : ℚ
  inference : ℚ
  total : ℚ
deriving DecidableEq

/-- The time-series view `emissionData` (App.js lines 56-63): a fixed list of
six labelled points with hardcoded values. -/
def emissionData : List EmissionPoint :=
  [⟨"Jan", 120, 80, 200⟩,
   ⟨"Feb", 140, 75, 215⟩,
   ⟨"Mar", 110, 85, 195⟩,
   ⟨"Apr", 95, 70, 165⟩,
   ⟨"May", 130, 90, 220⟩,
   ⟨"Jun", 85, 65, 150⟩]

/-- One row of the scenario-comparison view (App.js lines 65-70). -/
structure CompRow where
  name : String
  co2 : ℚ
  accuracy : ℚ
  energy : ℚ
deriving DecidableEq

/-- The scenario-comparison view `modelComparison` (App.js lines 65-70): a
fixed list of four rows with hardcoded values. -/
def modelComparison : List CompRow :=
  [⟨"Original", 2347 / 10, 921 / 10, 450⟩,
   ⟨"Pruned", 1873 / 10, 918 / 10, 360⟩,
   ⟨"Quantized", 1562 / 10, 915 / 10, 298⟩,
   ⟨"Distilled", 1348 / 10, 909 / 10, 267⟩]

/-- The scenario comparison as the specification describes it, for refinement
comparison with `modelComparison`: co2 scales the total footprint `T` by
1.0, 0.8, 0.7, 0.6 and energy scales the dynamic power `P` by 1000, 800,
700, 600, with the fixed accuracy constants of the view. -/
def modelComparisonSpec (T P : ℚ) : List CompRow :=
  [⟨"Original", T * 1, 921 / 10, P * 1000⟩,
   ⟨"Pruned", T * (8 / 10), 918 / 10, P * 800⟩,
   ⟨"Quantized", T * (7 / 10), 915 / 10, P * 700⟩,
   ⟨"Distilled", T * (6 / 10), 909 / 10, P * 600⟩]

/-- Value of a list of decimal digit characters, most significant first. -/
def digitsVal (cs : List Char) : Nat :=
  cs.foldl (fun n c => 10 * n + (c.toNat - 48)) 0

/-- Model of JavaScript `parseFloat` on the catalog reduction strings such as
`"25%"`: the leading run of digits read as a number (all reductions in the
source are integer percents). -/
def parsePercentNat (s : String) : Nat :=
  digitsVal (s.data.takeWhile Char.isDigit)

/-- The reduction percent of an entry as a rational, as `parseFloat` yields it. -/
def parsePercent (s : String) : ℚ :=
  (parsePercentNat s : ℚ)

/-- Model of JavaScript `toFixed(1)` on exact rationals: round to one decimal
place, ties toward positive infinity. -/
def roundTo1 (q : ℚ) : ℚ :=
  (⌊q * 10 + 1 / 2⌋ : ℤ) / 10

/-- The displayed estimated CO2 reduction of an optimization entry
(App.js line 334): `(parseFloat(model.co2) * parseFloat(opt.reduction) / 100).toFixed(1)`. -/
def estimatedSavingsDisplay (m : Model) (opt : OptEntry) : ℚ :=
  roundTo1 (m.co2 * parsePercent opt.reduction / 100)

/-- The efficiency badge of the detailed-metrics table (App.js line 471). -/
def efficiencyBadge (co2 : ℚ) : String :=
  if co2 < 100 then "Excellent" else if co2 < 200 then "Good" else "Needs Optimization"

/-- One row of the detailed-metrics table (App.js lines 459-474). -/
structure TableRow where
  name : String
  co2 : ℚ
  energyKwh : ℚ
  gpuHours : ℚ
  badge : String

/-- The detailed-metrics table row derived per model (App.js lines 459-474):
co2 is shown raw, the energy and GPU-hours cells are `(co2 * 2.1).toFixed(1)`
and `(co2 * 0.8).toFixed(1)`, and the badge follows `efficiencyBadge`. -/
def tableRow (m : Model) : TableRow :=
  { name := m.name,
    co2 := m.co2,
    energyKwh := roundTo1 (m.co2 * (21 / 10)),
    gpuHours := roundTo1 (m.co2 * (8 / 10)),
    badge := efficiencyBadge m.co2 }

/-- The selection and navigation state of the dashboard component
(App.js lines 6-8). -/
structure DashState where
  activeTab : String
  selectedModel : Option Model
  selectedOptimizationModel : Option Model

/-- The initial selection state (App.js lines 6-8): overview tab, nothing
selected. -/
def initialState : DashState :=
  { activeTab := "overview", selectedModel := none, selectedOptimizationModel := none }

/-- Click handler of an optimization model card (App.js line 263):
`setSelectedOptimizationModel(model)`, an unconditional overwrite. -/
def clickOptimizationCard (s : DashState) (m : Model) : DashState :=
  { s with selectedOptimizationModel := some m }

/-- Click handler of the Analyze button in the models list (App.js line 235):
`setSelectedModel(model)`, an unconditional overwrite. -/
def clickAnalyze (s : DashState) (m : Model) : DashState :=
  { s with selectedModel := some m }

/-- Modelled from the spec: the states of the upload workflow (spec section
4.4). The source holds only the static upload markup (App.js lines 172-186)
with no handler or form state, so the workflow is taken from the
specification text. -/
inductive UploadState where
  | Idle
  | Submitting
  | Succeeded
  | Failed
deriving DecidableEq

/-- Modelled from the spec: the form-scoped upload request (spec section 3)
with a model name, a version and an optional binary file payload; the upload
form itself is absent from the source. -/
structure UploadRequest where
  modelName : String
  version : String
  file : Option (List Nat)

/-- Modelled from the spec: all three upload fields present and non-empty
(spec sections 3 and 4.4); the validation code is absent from the source. -/
def validRequest (r : UploadRequest) : Bool :=
  !r.modelName.isEmpty && !r.version.isEmpty &&
    (match r.file with
     | some bytes => !bytes.isEmpty
     | none => false)

/-- Modelled from the spec: the submit action of the upload workflow (spec
section 4.4). From `Idle` it enters `Submitting` only for a valid request and
is otherwise a no-op; while `Submitting` the action is disabled; the transient
`Succeeded` and `Failed` notifications do not lock out a new submission. -/
def submit (s : UploadState) (r : UploadRequest) : UploadState :=
  match s with
  | UploadState.Submitting => UploadState.Submitting
  | s => if validRequest r then UploadState.Submitting else s

/-- A request whose version field is empty, for the upload-guard witness. -/
def emptyVersionRequest : UploadRequest :=
  { modelName := "bert-tuned", version := "", file := some [1, 2, 3] }

/-- The NLP Quantization catalog entry (App.js line 30), for the savings
witness. -/
def nlpQuantization : OptEntry :=
  ⟨"Quantization", "35%", "High", "Low", "Convert to INT8 precision for faster inference"⟩

/-- A model whose type is none of the four catalog categories, for the
fallback witness. -/
def audioModel : Model :=
  { id := 9, name := "Whisper", type := "Audio", co2 := 60, status := "analyzed", lastRun := "2024-12-03" }

/-- C1: a table row's efficiency badge is `Excellent` exactly when co2 < 100,
`Good` exactly when 100 ≤ co2 < 200 and `Needs Optimization` exactly when
co2 ≥ 200; the boundary records 99.9, 100, 199.9 and 200 land as stated. -/
theorem badge_thresholds (m : Model) :
    ((tableRow m).badge = "Excellent" ↔ m.co2 < 100) ∧
    ((tableRow m).badge = "Good" ↔ 100 ≤ m.co2 ∧ m.co2 < 200) ∧
    ((tableRow m).badge = "Needs Optimization" ↔ 200 ≤ m.co2) ∧
    (tableRow (mkModel (999 / 10))).badge = "Excellent" ∧
    (tableRow (mkModel 100)).badge = "Good" ∧
    (tableRow (mkModel (1999 / 10))).badge = "Good" ∧
    (tableRow (mkModel 200)).badge = "Needs Optimization" := by
  have hb : ∀ x : Model, (tableRow x).badge = efficiencyBadge x.co2 := fun _ => rfl
  refine ⟨?_, ?_, ?_, ?_, ?_, ?_, ?_⟩
  · rw [hb]; unfold efficiencyBadge
    split_ifs with h1 h2
    · exact iff_of_true rfl h1
    · exact iff_of_false (by decide) h1
    · exact iff_of_false (by decide) h1
  · rw [hb]; unfold efficiencyBadge
    split_ifs with h1 h2
    · refine iff_of_false (by decide) ?_
      rintro ⟨hc, _⟩
      exact absurd h1 (not_lt.mpr hc)
    · exact iff_of_true rfl ⟨le_of_not_lt h1, h2⟩
    · refine iff_of_false (by decide) ?_
      rintro ⟨_, hc⟩
      exact h2 hc
  · rw [hb]; unfold efficiencyBadge
    split_ifs with h1 h2
    · refine iff_of_false (by decide) ?_
      intro hc
      linarith
    · refine iff_of_false (by decide) ?_
      intro hc
      linarith
    · exact iff_of_true rfl (le_of_not_lt h2)
  · rw [hb]; unfold efficiencyBadge mkModel
    norm_num
  · rw [hb]; unfold efficiencyBadge mkModel
    norm_num
  · rw [hb]; unfold efficiencyBadge mkModel
    norm_num
  · rw [hb]; unfold efficiencyBadge mkModel
    norm_num

/-- C4 counterexample: for a null model `getModelOptimizations` returns the
empty list (App.js line 25), so the lookup does not return a non-empty
sequence for every input. -/
theorem null_model_gets_empty_list :
    getModelOptimizations (none : Option Model) = [] := rfl

/-- C4 amended: for every non-null model — any category, known or unknown —
the lookup returns a non-empty list; only the null model yields the empty
list. -/
theorem some_model_nonempty (m : Model) :
    getModelOptimizations (some m) ≠ [] ∧
    getModelOptimizations (none : Option Model) = [] := by
  constructor
  · have h : getModelOptimizations (some m)
        = (baseOptimizations m.type).getD nlpOptimizations := rfl
    rw [h]
    unfold baseOptimizations
    split <;> simp [nlpOptimizations, languageOptimizations, visionOptimizations,
      detectionOptimizations]
  · rfl

/-- C10: any non-null model whose type is none of NLP, Language, Vision and
Detection receives exactly the NLP list: Model Pruning 25%, Quantization 35%,
Knowledge Distillation 45%, Layer Freezing 20%. -/
theorem unknown_type_gets_nlp_list (m : Model)
    (h1 : m.type ≠ "NLP") (h2 : m.type ≠ "Language")
    (h3 : m.type ≠ "Vision") (h4 : m.type ≠ "Detection") :
    getModelOptimizations (some m) = nlpOptimizations ∧
    nlpOptimizations.map (fun o => (o.technique, o.reduction)) =
      [("Model Pruning", "25%"), ("Quantization", "35%"),
       ("Knowledge Distillation", "45%"), ("Layer Freezing", "20%")] := by
  refine ⟨?_, rfl⟩
  have h : getModelOptimizations (some m)
      = (baseOptimizations m.type).getD nlpOptimizations := rfl
  rw [h]
  unfold baseOptimizations
  split <;> simp_all

/-- C10 witness: a model of type `Audio` gets the NLP list. -/
theorem unknown_type_gets_nlp_list_witness :
    getModelOptimizations (some audioModel) = nlpOptimizations ∧
    nlpOptimizations.map (fun o => (o.technique, o.reduction)) =
      [("Model Pruning", "25%"), ("Quantization", "35%"),
       ("Knowledge Distillation", "45%"), ("Layer Freezing", "20%")] :=
  unknown_type_gets_nlp_list audioModel (by decide) (by decide) (by decide) (by decide)

/-- C2 counterexample: taking the record whose total footprint is 234.7 and
whose dynamic power is 0.45 — the only values matching the Original row — the
hardcoded comparison rows differ from the multiplier-scaled rows: the Pruned
co2 is 187.3, not 234.7 * 0.8 = 187.76. -/
theorem modelComparison_not_scaled :
    modelComparison ≠ modelComparisonSpec (2347 / 10) (45 / 100) := by
  intro h
  have h2 := congrArg (fun l => (l.map CompRow.co2).get? 1) h
  simp only [modelComparison, modelComparisonSpec, List.map_cons, List.map_nil,
    List.get?] at h2
  norm_num at h2

/-- C2 amended: the scenario-comparison view is a fixed ordered list of
exactly four rows labelled Original, Pruned, Quantized, Distilled carrying the
hardcoded constants co2 234.7, 187.3, 156.2, 134.8, accuracy 92.1, 91.8, 91.5,
90.9 and energy 450, 360, 298, 267; it is independent of any record and its
values only approximate the 1.0/0.8/0.7/0.6 multiplier scalings. -/
theorem modelComparison_fixed :
    modelComparison.map CompRow.name = ["Original", "Pruned", "Quantized", "Distilled"] ∧
    modelComparison.map CompRow.co2 = [2347 / 10, 1873 / 10, 1562 / 10, 1348 / 10] ∧
    modelComparison.map CompRow.accuracy = [921 / 10, 918 / 10, 915 / 10, 909 / 10] ∧
    modelComparison.map CompRow.energy = [450, 360, 298, 267] :=
  ⟨rfl, rfl, rfl, rfl⟩

/-- C3 counterexample: clicking the BERT-Base optimization card twice from the
initial state leaves BERT-Base expanded — the selection does not return to
no-expansion, because the handler is an unconditional overwrite with no
toggle. -/
theorem expand_twice_stays_expanded :
    (clickOptimizationCard (clickOptimizationCard initialState bertBase)
        bertBase).selectedOptimizationModel ≠ none :=
  fun h => Option.noConfusion h

/-- C3 amended: selecting an optimization card always sets that model as the
expansion target: re-selecting the currently expanded entry leaves it expanded
(the click is idempotent, never a collapse), and selecting a different entry
replaces the target; the Analyze button behaves the same way on
`selectedModel`. -/
theorem click_sets_selection (s : DashState) (m : Model) :
    (clickOptimizationCard s m).selectedOptimizationModel = some m ∧
    clickOptimizationCard (clickOptimizationCard s m) m = clickOptimizationCard s m ∧
    (clickAnalyze s m).selectedModel = some m :=
  ⟨rfl, rfl, rfl⟩

/-- C6 counterexample: for a record with co2 0.0046 the energy cell holds
`(0.0046 * 2.1).toFixed(1)`, i.e. 0.0 — not the exact product 0.00966 the
claim states. -/
theorem tiny_co2_energy_rounds_to_zero :
    (tableRow (mkModel (46 / 10000))).energyKwh = 0 ∧
    (tableRow (mkModel (46 / 10000))).energyKwh ≠ 966 / 100000 := by
  have h : (tableRow (mkModel (46 / 10000))).energyKwh
      = roundTo1 ((46 / 10000) * (21 / 10)) := rfl
  constructor
  · rw [h]; unfold roundTo1; norm_num
  · rw [h]; unfold roundTo1; norm_num

/-- C6 amended: each table row carries the raw co2 while energyKwh and
gpuHours are co2 * 2.1 and co2 * 0.8 rounded to one decimal place by
`toFixed(1)`; the record with co2 0.0046 therefore yields co2 0.0046,
energyKwh 0.0, gpuHours 0.0 and badge Excellent. -/
theorem tableRow_fields (m : Model) :
    (tableRow m).co2 = m.co2 ∧
    (tableRow m).energyKwh = roundTo1 (m.co2 * (21 / 10)) ∧
    (tableRow m).gpuHours = roundTo1 (m.co2 * (8 / 10)) ∧
    (tableRow (mkModel (46 / 10000))).co2 = 46 / 10000 ∧
    (tableRow (mkModel (46 / 10000))).energyKwh = 0 ∧
    (tableRow (mkModel (46 / 10000))).gpuHours = 0 ∧
    (tableRow (mkModel (46 / 10000))).badge = "Excellent" := by
  refine ⟨rfl, rfl, rfl, rfl, ?_, ?_, ?_⟩
  · show roundTo1 ((46 / 10000) * (21 / 10)) = 0
    unfold roundTo1; norm_num
  · show roundTo1 ((46 / 10000) * (8 / 10)) = 0
    unfold roundTo1; norm_num
  · show efficiencyBadge (46 / 10000) = "Excellent"
    unfold efficiencyBadge
    norm_num

/-- C7 counterexample: the January and February points of the time series
carry different training values (120 and 140), so the view does not repeat a
single record's training value across every point. -/
theorem emission_points_not_constant :
    ¬ ∀ p ∈ emissionData, ∀ q ∈ emissionData,
        p.training = q.training ∧ p.inference = q.inference := by
  intro h
  have h2 := h ⟨"Jan", 120, 80, 200⟩ (by decide) ⟨"Feb", 140, 75, 215⟩ (by decide)
  have h3 : (120 : ℚ) = 140 := h2.1
  norm_num at h3

/-- C7 amended: the time-series view is the fixed six-point list labelled
Jan, Feb, Mar, Apr, May, Jun with hardcoded, non-constant training values
120, 140, 110, 95, 130, 85 and inference values 80, 75, 85, 70, 90, 65; it is
independent of any record. -/
theorem emissionData_fixed :
    emissionData.map EmissionPoint.name = ["Jan", "Feb", "Mar", "Apr", "May", "Jun"] ∧
    emissionData.map EmissionPoint.training = [120, 140, 110, 95, 130, 85] ∧
    emissionData.map EmissionPoint.inference = [80, 75, 85, 70, 90, 65] :=
  ⟨rfl, rfl, rfl⟩

/-- C8: every point of the time-series view satisfies
total = training + inference exactly. -/
theorem timeSeries_total_additive (p : EmissionPoint) (hp : p ∈ emissionData) :
    p.total = p.training + p.inference := by
  revert hp
  have h : ∀ q ∈ emissionData, q.total = q.training + q.inference := by
    norm_num [emissionData]
  exact h p

/-- C8 witness: the January point satisfies the additivity invariant. -/
theorem timeSeries_total_additive_witness :
    (⟨"Jan", 120, 80, 200⟩ : EmissionPoint).total
      = (⟨"Jan", 120, 80, 200⟩ : EmissionPoint).training
        + (⟨"Jan", 120, 80, 200⟩ : EmissionPoint).inference :=
  timeSeries_total_additive ⟨"Jan", 120, 80, 200⟩ (by decide)

/-- Every entry of the four category lists carries an integer reduction
percent of at most 100. -/
theorem catalog_reduction_le_100 :
    ∀ o ∈ nlpOptimizations ++ languageOptimizations
        ++ visionOptimizations ++ detectionOptimizations,
      parsePercentNat o.reduction ≤ 100 := by decide

/-- Every catalog answer for a non-null model is drawn from the four category
lists. -/
theorem catalog_mem_of_mem (m : Model) (opt : OptEntry)
    (hmem : opt ∈ getModelOptimizations (some m)) :
    opt ∈ nlpOptimizations ++ languageOptimizations
        ++ visionOptimizations ++ detectionOptimizations := by
  have h : getModelOptimizations (some m)
      = (baseOptimizations m.type).getD nlpOptimizations := rfl
  rw [h] at hmem
  unfold baseOptimizations at hmem
  split at hmem <;> simp_all [List.mem_append]

/-- C5: for every model and every optimization entry recommended for it, the
displayed estimated savings equals the model's footprint times the entry's
reduction percent over 100, rounded to one decimal place, and the percent is
between 0 and 100; the embedding is purely functional, so computing the value
mutates neither the entry nor the model. -/
theorem estimatedSavings_formula (m : Model) (opt : OptEntry)
    (hmem : opt ∈ getModelOptimizations (some m)) :
    estimatedSavingsDisplay m opt
      = roundTo1 (m.co2 * parsePercent opt.reduction / 100) ∧
    0 ≤ parsePercent opt.reduction ∧ parsePercent opt.reduction ≤ 100 := by
  refine ⟨rfl, ?_, ?_⟩
  · unfold parsePercent
    positivity
  · have hnat := catalog_reduction_le_100 opt (catalog_mem_of_mem m opt hmem)
    unfold parsePercent
    exact_mod_cast hnat

/-- C5 witness: Quantization (35 percent) on a model with co2 45.2 displays
45.2 * 35 / 100 rounded to one decimal, and the percent is in range. -/
theorem estimatedSavings_formula_witness :
    estimatedSavingsDisplay (mkModel (452 / 10)) nlpQuantization
      = roundTo1 ((mkModel (452 / 10)).co2 * parsePercent nlpQuantization.reduction / 100) ∧
    0 ≤ parsePercent nlpQuantization.reduction ∧
    parsePercent nlpQuantization.reduction ≤ 100 :=
  estimatedSavings_formula (mkModel (452 / 10)) nlpQuantization (by decide)

/-- C9: from `Idle`, a submit with an invalid request — in particular one with
an empty version field — is a no-op: the workflow stays in `Idle`. Modelled
from the spec, section 4.4; the source holds only the static upload markup. -/
theorem submit_empty_version_noop (r : UploadRequest) :
    (validRequest r = false → submit UploadState.Idle r = UploadState.Idle) ∧
    (r.version = "" → submit UploadState.Idle r = UploadState.Idle) := by
  have hs : submit UploadState.Idle r
      = if validRequest r then UploadState.Submitting else UploadState.Idle := rfl
  constructor
  · intro h
    rw [hs, h]
    rfl
  · intro h
    have he : "".isEmpty = true := rfl
    have hv : validRequest r = false := by
      unfold validRequest
      rw [h, he]
      simp
    rw [hs, hv]
    rfl

/-- C9 witness: a concrete request with an empty version leaves the workflow
in `Idle`. -/
theorem submit_empty_version_noop_witness :
    submit UploadState.Idle emptyVersionRequest = UploadState.Idle :=
  (submit_empty_version_noop emptyVersionRequest).2 rfl

end CO2Dashboard
